import Mathlib

/-!
Verification development for the sexto-andar-auth service.

Shallow embedding of the account data model (app/models/account.py), the
account repository (app/repositories/account_repository.py), the JWT
handler (app/auth/jwt_handler.py), the authentication service
(app/services/auth_service.py), the webhook service
(app/services/webhook_service.py) and the relevant route handlers
(app/controllers/auth_controller.py).

Database state is a list of accounts; SQLAlchemy queries become list
operations; HTTPException raises become an `Except` error result; the
bcrypt password primitives and the external relation/webhook collaborators
are abstract parameters.
-/

deriving instance DecidableEq for Except

namespace SextoAndar

/-- Embeds the Python `str.lower()` call on the ASCII data this service
handles: lowercase each character. -/
def pyLower (s : String) : String := String.mk (s.data.map Char.toLower)

/-- Embeds `RoleEnum` exactly as committed in src/app/models/account.py:
the committed enum has only two members (`USER = "user"`,
`PROPERTY_OWNER = "property_owner"`); there is no `ADMIN` member. -/
inductive ModelRoleEnum where
  | USER
  | PROPERTY_OWNER
deriving DecidableEq

/-- The `.value` string of the committed two-member enum. -/
def ModelRoleEnum.value : ModelRoleEnum → String
  | .USER => "user"
  | .PROPERTY_OWNER => "property_owner"

/-- Embeds `Account.validate_role` from src/app/models/account.py (string
branch): an empty/None role errors with "Role is required"; a string is
converted through `RoleEnum(role)`, which accepts only the two enum
values and otherwise rejects the input with the role-must-be message. -/
def validate_role (role : String) : Except String ModelRoleEnum :=
  if role == "" then .error "Role is required"
  else if role == ModelRoleEnum.USER.value then .ok .USER
  else if role == ModelRoleEnum.PROPERTY_OWNER.value then .ok .PROPERTY_OWNER
  else .error "Role must be \x27user\x27 or \x27property_owner\x27"

/-- Modelled from the spec: the three-role enum (`USER`, `PROPERTY_OWNER`,
`ADMIN`). The committed model file lacks the `ADMIN` member, but the
services (`RoleEnum.ADMIN` in `AuthService.register_admin`), the
controllers, the scripts and the test suite of the repository
(tests/models/test_account.py asserts `RoleEnum.ADMIN.value == "ADMIN"`)
all require it; the service layer below is built over this enum. -/
inductive RoleEnum where
  | USER
  | PROPERTY_OWNER
  | ADMIN
deriving DecidableEq

/-- Role `.value` strings per tests/models/test_account.py
(`test_role_enum_values`). -/
def roleValue : RoleEnum → String
  | .USER => "USER"
  | .PROPERTY_OWNER => "PROPERTY_OWNER"
  | .ADMIN => "ADMIN"

/-- Embeds the persisted `Account` row (src/app/models/account.py):
id (UUID, kept as its string form since every service comparison uses
`str(id)`), username, fullName, phoneNumber, email, password (hash),
role, created_at (unix seconds) and the profile-picture blob. -/
structure Account where
  id : String
  username : String
  fullName : String
  phoneNumber : String
  email : String
  password : String
  role : RoleEnum
  created_at : Nat
  profile_picture : Option String
deriving DecidableEq

/-- Modelled from the spec: `Account.is_admin` (asserted by
tests/models/test_account.py; absent from the committed model file):
true iff the role is ADMIN. -/
def Account.is_admin (a : Account) : Bool := a.role == RoleEnum.ADMIN

/-- Embeds `Account.is_property_owner`. -/
def Account.is_property_owner (a : Account) : Bool := a.role == RoleEnum.PROPERTY_OWNER

/-- Embeds `Account.is_user`. -/
def Account.is_user (a : Account) : Bool := a.role == RoleEnum.USER

/-- Embeds the `@validates` hook `Account.validate_username`: required,
3 to 50 characters, only letters, digits and underscore (the regex
`^[a-zA-Z0-9_]+$`); returns the lowercased username. -/
def validate_username_model (username : String) : Except String String :=
  if username == "" then .error "Username is required"
  else if username.length < 3 || username.length > 50 then
    .error "Username must be between 3 and 50 characters"
  else if !(username.data.all fun c => c.isAlphanum || c == '_') then
    .error "Username must contain only letters, numbers and underscore"
  else .ok (pyLower username)

/-- Embeds the `@validates` hook `Account.validate_email`: required;
returns the lowercased email (format itself is left to the EmailType
column). -/
def validate_email_model (email : String) : Except String String :=
  if email == "" then .error "Email is required"
  else .ok (pyLower email)

/-- Embeds the `@validates` hook `Account.validate_phone`: required, and
10 to 15 digits after stripping every non-digit character. -/
def validate_phone_model (phone : String) : Except String String :=
  if phone == "" then .error "Phone number is required"
  else if (phone.data.filter Char.isDigit).length < 10
      || (phone.data.filter Char.isDigit).length > 15 then
    .error "Phone number must have between 10 and 15 digits"
  else .ok phone

/-- Embeds the `@validates` hook `Account.validate_password`: required
and at least 8 characters. In the registration flow this hook runs on
the already-hashed password, exactly as in the service. -/
def validate_password_model (password : String) : Except String String :=
  if password == "" then .error "Password is required"
  else if password.length < 8 then .error "Password must have at least 8 characters"
  else .ok password

/-- Embeds the `Account(...)` constructor as the services call it: each
keyword assignment runs its `@validates` hook in the order the keywords
are passed (username, fullName, email, phoneNumber, password, role);
the first failing hook raises its ValueError and nothing is built. The
role hook passes an enum value through unchanged, and fullName has no
hook. -/
def buildAccount (username fullName email phone password : String) (role : RoleEnum)
    (newId : String) (createdAt : Nat) : Except String Account :=
  match validate_username_model username with
  | .error e => .error e
  | .ok uname =>
    match validate_email_model email with
    | .error e => .error e
    | .ok em =>
      match validate_phone_model phone with
      | .error e => .error e
      | .ok ph =>
        match validate_password_model password with
        | .error e => .error e
        | .ok pw =>
            .ok { id := newId
                  username := uname
                  fullName := fullName
                  phoneNumber := ph
                  email := em
                  password := pw
                  role := role
                  created_at := createdAt
                  profile_picture := none }

/-- Embeds the HTTPException raises of the service and controller layer:
each carries the HTTP status family and the `detail` string.
`internalError` stands for an unhandled Python exception — such as a
model-validator ValueError escaping the service — surfaced by the
framework as the generic 500. -/
inductive ApiError where
  | badRequest (detail : String)
  | unauthorized (detail : String)
  | forbidden (detail : String)
  | notFound (detail : String)
  | internalError (detail : String)
deriving DecidableEq

/-- True iff the result is an HTTP 400 error. -/
def isBadRequest {α : Type} : Except ApiError α → Bool
  | .error (.badRequest _) => true
  | _ => false

/-- True iff the result is the duplicate-username/email error raised by
the registration paths (the spec's `Conflict` taxonomy entry; the code
raises it as HTTP 400 with these two detail strings, and spec §6 maps
registration duplicates to status 400). -/
def isDuplicateConflict {α : Type} : Except ApiError α → Bool
  | .error (.badRequest d) => d == "Username already exists" || d == "Email already exists"
  | _ => false

/-! ## Account repository (src/app/repositories/account_repository.py) -/

/-- Embeds `AccountRepository.get_by_id`: first row with matching id. -/
def get_by_id (db : List Account) (accountId : String) : Option Account :=
  db.find? (fun a => a.id == accountId)

/-- Embeds `AccountRepository.get_by_username`: first row whose stored
username equals the lowercased query. -/
def get_by_username (db : List Account) (username : String) : Option Account :=
  db.find? (fun a => a.username == pyLower username)

/-- Embeds `AccountRepository.get_by_email`: first row whose stored email
equals the lowercased query. -/
def get_by_email (db : List Account) (email : String) : Option Account :=
  db.find? (fun a => a.email == pyLower email)

/-- Embeds `AccountRepository.username_exists`: some row has the
lowercased username, optionally excluding one id. -/
def username_exists (db : List Account) (username : String) (excludeId : Option String) : Bool :=
  db.any (fun a =>
    a.username == pyLower username &&
      (match excludeId with
       | none => true
       | some i => a.id != i))

/-- Embeds `AccountRepository.email_exists`: some row has the lowercased
email, optionally excluding one id. -/
def email_exists (db : List Account) (email : String) (excludeId : Option String) : Bool :=
  db.any (fun a =>
    a.email == pyLower email &&
      (match excludeId with
       | none => true
       | some i => a.id != i))

/-- Embeds `AccountRepository.create`: insert and commit the new row. -/
def repo_create (db : List Account) (account : Account) : List Account :=
  db ++ [account]

/-- Embeds `AccountRepository.update`: commit the mutated row (replace the
row with the same primary key). -/
def repo_update (db : List Account) (account : Account) : List Account :=
  db.map (fun a => if a.id == account.id then account else a)

/-- Embeds `AccountRepository.delete`: remove the row and commit. -/
def repo_delete (db : List Account) (account : Account) : List Account :=
  db.filter (fun a => a.id != account.id)

/-- Modelled from the spec: `countAdmins` of the credential-store
interface (spec §9); the committed repository file lacks it although
`AuthService.delete_admin` calls `self.account_repo.count_admins()`.
Counts the rows whose role is ADMIN. -/
def count_admins (db : List Account) : Nat :=
  (db.filter (fun a => a.role == RoleEnum.ADMIN)).length

/-- Every persisted row stores its username and email lowercased: the
model validators (`validate_username`, `validate_email` in
src/app/models/account.py) lowercase on every assignment, and every
creation path in `AuthService` also lowercases explicitly. -/
def StoreNormalized (db : List Account) : Prop :=
  ∀ a ∈ db, pyLower a.username = a.username ∧ pyLower a.email = a.email

/-! ## Password hasher (abstract) -/

/-- Modelled from the spec: the bcrypt password primitives
(`hash_password` / `verify_password` of app/auth/password_handler.py,
which is not part of the snapshot; spec §4.1): a one-way hash and a
boolean verify, taken as abstract parameters of the service layer. -/
structure PasswordHasher where
  hashPw : String → String
  verifyPw : String → String → Bool

/-! ## JWT handler (src/app/auth/jwt_handler.py) -/

/-- Embeds the module constant `SECRET_KEY`. -/
def SECRET_KEY : String := "your-super-secret-key-change-in-production"

/-- Embeds the module constant `ALGORITHM`. -/
def ALGORITHM : String := "HS256"

/-- Embeds the module constant `ACCESS_TOKEN_EXPIRE_MINUTES`. -/
def ACCESS_TOKEN_EXPIRE_MINUTES : Nat := 30

/-- The claim-set payload put into a token by `create_user_token`:
subject id, username, role. -/
structure TokenData where
  sub : String
  username : String
  role : String
deriving DecidableEq

/-- The full decoded payload: the data plus the embedded expiry
(unix seconds), as produced by `jwt.encode({**data, "exp": expire})`. -/
structure Claims where
  data : TokenData
  exp : Nat
deriving DecidableEq

/-- A compact token string, modelled algebraically: either a well-formed
JWT carrying its payload, signing secret and algorithm, or a malformed
string. The HMAC itself is abstracted: a signature checks out exactly
when the token was produced under the secret and algorithm of the verifier. -/
inductive Token where
  | signed (claims : Claims) (secret : String) (alg : String)
  | malformed (raw : String)
deriving DecidableEq

/-- Embeds `create_access_token`: copies the data, sets
`exp = now + expires_delta` (default 30 minutes) and signs with
`SECRET_KEY` / `ALGORITHM`. -/
def create_access_token (now : Nat) (data : TokenData) (expiresDelta : Option Nat) : Token :=
  let expire :=
    match expiresDelta with
    | some d => now + d
    | none => now + ACCESS_TOKEN_EXPIRE_MINUTES * 60
  .signed { data := data, exp := expire } SECRET_KEY ALGORITHM

/-- Embeds `verify_token`: `jwt.decode(token, SECRET_KEY, [ALGORITHM])`
returns the payload when the signature matches the service secret and
algorithm and the embedded expiry is still in the future (PyJWT rejects
`exp ≤ now`); every `InvalidTokenError` (malformed, bad signature,
expired) collapses to `None`. -/
def verify_token (now : Nat) (t : Token) : Option Claims :=
  match t with
  | .malformed _ => none
  | .signed c secret alg =>
      if secret == SECRET_KEY && alg == ALGORITHM && decide (now < c.exp) then some c else none

/-! ## DTOs (app/dtos/auth_dto.py, app/dtos/admin_dto.py, app/dtoss) -/

/-- Embeds `LoginRequest`. -/
structure LoginRequest where
  username : String
  password : String

/-- Embeds `RegisterUserRequest` (and the field-identical
`RegisterPropertyOwnerRequest`). -/
structure RegisterUserRequest where
  username : String
  fullName : String
  email : String
  phoneNumber : String
  password : String

/-- Modelled from the spec: `UpdateProfileRequest` (imported by
src/app/services/auth_service.py but absent from the committed
app/dtos/auth_dto.py; field names per the service body and
tests/controllers/test_profile_update.py): all fields optional. -/
structure UpdateProfileRequest where
  fullName : Option String
  phoneNumber : Option String
  email : Option String
  newPassword : Option String
  currentPassword : Option String

/-- Embeds `UpdateUserRequest` (app/dtos/admin_dto.py): the admin update
payload; all fields optional, no current password. -/
structure UpdateUserRequest where
  fullName : Option String
  phoneNumber : Option String
  email : Option String
  password : Option String

/-- Embeds `IntrospectRequest` (app/dtos/auth_dto.py). -/
structure IntrospectRequest where
  token : Token

/-- Embeds `IntrospectResponse` (app/dtos/auth_dto.py). -/
structure IntrospectResponse where
  active : Bool
  claims : Option Claims
  reason : Option String
deriving DecidableEq

/-- Embeds `UserInfoResponse` (app/dtos/user_dto.py). -/
structure UserInfoResponse where
  id : String
  username : String
  fullName : String
  email : String
  phoneNumber : Option String
  role : String
  createdAt : Nat
  isActive : Bool
  hasProfilePicture : Bool
deriving DecidableEq

/-- Embeds `UserInfoResponse.from_account`. -/
def UserInfoResponse.from_account (a : Account) : UserInfoResponse :=
  { id := a.id
    username := a.username
    fullName := a.fullName
    email := a.email
    phoneNumber := some a.phoneNumber
    role := roleValue a.role
    createdAt := a.created_at
    isActive := true
    hasProfilePicture := a.profile_picture.isSome }

/-- Python truthiness of an optional string field, as used by the
`if update_data.field:` checks of the service: None and "" are falsy. -/
def truthy : Option String → Bool
  | none => false
  | some s => !(s == "")

/-! ## Authentication service (src/app/services/auth_service.py) -/

/-- Embeds `AuthService.authenticate_user`: username lookup
(case-insensitive via the repository), then hash verification; both
failure modes return `None`. -/
def authenticate_user (h : PasswordHasher) (db : List Account) (l : LoginRequest) :
    Option Account :=
  match get_by_username db l.username with
  | none => none
  | some user => if h.verifyPw l.password user.password then some user else none

/-- Embeds `AuthService.create_user_token`: the token payload is
`{sub: str(id), username, role: role.value}` with the default expiry. -/
def create_user_token (now : Nat) (user : Account) : Token :=
  create_access_token now
    { sub := user.id, username := user.username, role := roleValue user.role } none

/-- Embeds the `POST /auth/login` handler
(src/app/controllers/auth_controller.py): a `None` from
`authenticate_user` becomes one uniform 401
"Incorrect username or password"; otherwise the token and user are
returned. -/
def login (h : PasswordHasher) (db : List Account) (now : Nat) (l : LoginRequest) :
    Except ApiError (Token × Account) :=
  match authenticate_user h db l with
  | none => .error (.unauthorized "Incorrect username or password")
  | some user => .ok (create_user_token now user, user)

/-- Embeds `AuthService.register_user`: duplicate checks first
(400 "Username already exists" / "Email already exists"), then
`Account(username=...lower(), ..., password=hash, role=USER)` — whose
`@validates` hooks run and may raise a ValueError that escapes the
service unhandled (`internalError`) — then persist and return the
created row. `newId` and `createdAt` stand for the uuid4 / now() column
defaults filled at insert time. -/
def register_user (h : PasswordHasher) (db : List Account) (d : RegisterUserRequest)
    (newId : String) (createdAt : Nat) : Except ApiError (List Account × Account) :=
  if username_exists db d.username none then .error (.badRequest "Username already exists")
  else if email_exists db d.email none then .error (.badRequest "Email already exists")
  else
    match buildAccount (pyLower d.username) d.fullName (pyLower d.email) d.phoneNumber
        (h.hashPw d.password) .USER newId createdAt with
    | .error e => .error (.internalError e)
    | .ok newUser => .ok (repo_create db newUser, newUser)

/-- Embeds `AuthService.register_property_owner`: identical to
`register_user` except the persisted role is `PROPERTY_OWNER`. -/
def register_property_owner (h : PasswordHasher) (db : List Account) (d : RegisterUserRequest)
    (newId : String) (createdAt : Nat) : Except ApiError (List Account × Account) :=
  if username_exists db d.username none then .error (.badRequest "Username already exists")
  else if email_exists db d.email none then .error (.badRequest "Email already exists")
  else
    match buildAccount (pyLower d.username) d.fullName (pyLower d.email) d.phoneNumber
        (h.hashPw d.password) .PROPERTY_OWNER newId createdAt with
    | .error e => .error (.internalError e)
    | .ok newOwner => .ok (repo_create db newOwner, newOwner)

/-- Embeds `AuthService.get_user_by_id`: 404 when absent. -/
def get_user_by_id_service (db : List Account) (userId : String) : Except ApiError Account :=
  match get_by_id db userId with
  | none => .error (.notFound "User not found")
  | some u => .ok u

/-- Embeds `AuthService.delete_admin`: self-delete check, then existence,
then target-is-admin, then the last-admin count check against the
pre-deletion total, then the physical delete. -/
def delete_admin (db : List Account) (adminId : String) (deleter : Account) :
    Except ApiError (List Account) :=
  if deleter.id == adminId then
    .error (.badRequest "Cannot delete your own admin account")
  else
    match get_by_id db adminId with
    | none => .error (.notFound "Admin account not found")
    | some target =>
      if !target.is_admin then
        .error (.badRequest "Target account is not an admin")
      else if count_admins db ≤ 1 then
        .error (.badRequest "Cannot delete the last admin account in the system")
      else
        .ok (repo_delete db target)

/-- Embeds the `if update_data.fullName:` mutation block of
`AuthService.update_profile` / `admin_update_user`. -/
def apply_fullName (v : Option String) (a : Account) : Account :=
  if truthy v then { a with fullName := v.getD "" } else a

/-- Embeds the `if update_data.phoneNumber:` mutation block. -/
def apply_phoneNumber (v : Option String) (a : Account) : Account :=
  if truthy v then { a with phoneNumber := v.getD "" } else a

/-- Embeds the email block of `AuthService.update_profile`: lowercase,
skip when unchanged (case-insensitively), otherwise reject when another
row already holds the email, else assign. -/
def apply_email_self (db : List Account) (currentId : String) (v : Option String)
    (a : Account) : Except ApiError Account :=
  if truthy v then
    if pyLower (v.getD "") != pyLower a.email then
      match get_by_email db (pyLower (v.getD "")) with
      | some existing =>
          if existing.id != currentId then .error (.badRequest "Email already exists")
          else .ok { a with email := pyLower (v.getD "") }
      | none => .ok { a with email := pyLower (v.getD "") }
    else .ok a
  else .ok a

/-- Embeds the email block of `AuthService.admin_update_user`: lowercase,
skip when unchanged, otherwise reject when `email_exists` excluding the
target's own row, else assign. -/
def apply_email_admin (db : List Account) (targetId : String) (v : Option String)
    (a : Account) : Except ApiError Account :=
  if truthy v then
    if pyLower (v.getD "") != pyLower a.email then
      if email_exists db (pyLower (v.getD "")) (some targetId) then
        .error (.badRequest "Email already exists")
      else .ok { a with email := pyLower (v.getD "") }
    else .ok a
  else .ok a

/-- Embeds the password mutation block: store the hash of the new
password. -/
def apply_password (h : PasswordHasher) (v : Option String) (a : Account) : Account :=
  if truthy v then { a with password := h.hashPw (v.getD "") } else a

/-- Embeds `AuthService.update_profile`: no-op check, then the
missing-current-password check for email/password changes, then the
current-password re-verification, then the field mutations and the
commit. -/
def update_profile (h : PasswordHasher) (db : List Account) (current : Account)
    (u : UpdateProfileRequest) : Except ApiError (List Account × Account) :=
  if !(truthy u.fullName || truthy u.phoneNumber || truthy u.email || truthy u.newPassword) then
    .error (.badRequest "No fields to update")
  else if (truthy u.email || truthy u.newPassword) && !truthy u.currentPassword then
    .error (.badRequest "Current password is required to change email or password")
  else if truthy u.currentPassword && !(h.verifyPw (u.currentPassword.getD "") current.password) then
    .error (.unauthorized "Current password is incorrect")
  else
    match apply_email_self db current.id u.email
        (apply_phoneNumber u.phoneNumber (apply_fullName u.fullName current)) with
    | .error e => .error e
    | .ok acc3 =>
        let acc4 := apply_password h u.newPassword acc3
        .ok (repo_update db acc4, acc4)

/-- The store after a `PUT /auth/profile` request: the committed store on
success; the untouched store when the service raised (no commit ran). -/
def update_profile_store (h : PasswordHasher) (db : List Account) (current : Account)
    (u : UpdateProfileRequest) : List Account :=
  match update_profile h db current u with
  | .ok (db2, _) => db2
  | .error _ => db

/-- Embeds `AuthService.admin_update_user`: target lookup (404), no-op
check, then the field mutations (no re-authentication) and the commit. -/
def admin_update_user (h : PasswordHasher) (db : List Account) (userId : String)
    (u : UpdateUserRequest) : Except ApiError (List Account × Account) :=
  match get_by_id db userId with
  | none => .error (.notFound "User not found")
  | some target =>
    if !(truthy u.fullName || truthy u.phoneNumber || truthy u.email || truthy u.password) then
      .error (.badRequest "No fields to update")
    else
      match apply_email_admin db target.id u.email
          (apply_phoneNumber u.phoneNumber (apply_fullName u.fullName target)) with
      | .error e => .error e
      | .ok acc3 =>
          let acc4 := apply_password h u.password acc3
          .ok (repo_update db acc4, acc4)

/-! ## Webhook service (src/app/services/webhook_service.py) -/

/-- Outcome of the outbound HTTP POST performed inside
the try block of `send_user_deleted_webhook`. -/
inductive WebhookOutcome where
  | delivered (statusCode : Nat)
  | requestFailed
  | unexpectedFailure
deriving DecidableEq

/-- Embeds the try-block body of
`WebhookService.send_user_deleted_webhook`: log on 2xx or non-2xx, then
`raise_for_status` raises on any 4xx/5xx; transport errors raise
`RequestError`. The result is the raised exception or the log lines. -/
def webhookAttempt (userId : String) (outcome : WebhookOutcome) : Except String (List String) :=
  match outcome with
  | .delivered code =>
      if 200 ≤ code && code < 300 then
        .ok ["Successfully sent user deletion webhook"]
      else if 400 ≤ code then
        .error ("HTTPStatusError for user_id: " ++ userId)
      else
        .ok ["Failed to send user deletion webhook for user_id: " ++ userId]
  | .requestFailed => .error ("RequestError for user_id: " ++ userId)
  | .unexpectedFailure => .error ("Unexpected error for user_id: " ++ userId)

/-- Embeds `WebhookService.send_user_deleted_webhook`: every exception of
the attempt is caught (`except httpx.RequestError` / `except Exception`)
and logged; the function always returns normally, yielding only log
lines. -/
def send_user_deleted_webhook (userId : String) (outcome : WebhookOutcome) : List String :=
  match webhookAttempt userId outcome with
  | .ok logs => logs
  | .error e => ["CRITICAL " ++ e]

/-- Modelled from the spec: `AuthService.admin_delete_user` as called by
its controller and asserted by tests/controllers/test_admin_endpoints.py.
The committed service body lacks the webhook call, but the controller
awaits the coroutine and the tests assert `send_user_deleted_webhook` is
called exactly once per successful deletion; per spec §4.3 the deletion
triggers the fire-and-forget webhook after the physical delete. The
result carries the new store, the list of webhook invocations (target
ids) and the webhook log lines. -/
def admin_delete_user (db : List Account) (userId : String) (outcome : WebhookOutcome) :
    Except ApiError (List Account × List String × List String) :=
  match get_by_id db userId with
  | none => .error (.notFound "User not found")
  | some target =>
    if target.is_admin then
      .error (.badRequest
        "Cannot delete admin users via this endpoint. Use admin deletion endpoint instead.")
    else
      let db2 := repo_delete db target
      .ok (db2, [target.id], send_user_deleted_webhook target.id outcome)

/-! ## Remaining route handlers (src/app/controllers/auth_controller.py) -/

/-- Embeds the `POST /auth/introspect` handler: the HTTP status paired
with the response body; no raise is reachable, so the status is always
200. -/
def introspect (now : Nat) (body : IntrospectRequest) : Nat × IntrospectResponse :=
  match verify_token now body.token with
  | none => (200, { active := false, claims := none, reason := some "invalid_or_expired" })
  | some p => (200, { active := true, claims := some p, reason := none })

/-- Embeds the `GET /auth/admin/users/{user_id}` handler: role gate, the
admin path, the owner self path, the relation gate (`hasRelation` stands
for the awaited `check_user_property_relation` result, already
fail-closed), and the placeholder fallback when the relation holds but
the local row is missing. `now` stands for `datetime.now()` in the
placeholder. -/
def get_user_by_id_endpoint (db : List Account) (current : Account) (userId : String)
    (hasRelation : Bool) (now : Nat) : Except ApiError UserInfoResponse :=
  if !(current.is_admin || current.is_property_owner) then
    .error (.forbidden "Insufficient permissions to access user information")
  else if current.is_admin then
    match get_user_by_id_service db userId with
    | .error e => .error e
    | .ok a => .ok (UserInfoResponse.from_account a)
  else if current.id == userId then
    match get_user_by_id_service db userId with
    | .error e => .error e
    | .ok a => .ok (UserInfoResponse.from_account a)
  else if !hasRelation then
    .error (.forbidden
      "You can only access information of users who interacted with your properties")
  else
    match get_user_by_id_service db userId with
    | .ok a => .ok (UserInfoResponse.from_account a)
    | .error _ =>
        .ok
          { id := userId
            username := "external_user_" ++ userId.take 8
            fullName := "External User"
            email := "external-" ++ userId.take 8 ++ "@example.com"
            phoneNumber := some "+5500900000000"
            role := "USER"
            createdAt := now
            isActive := true
            hasProfilePicture := false }

/-! ## Concrete fixtures used by the witnesses -/

/-- A concrete password hasher for evaluating the service on concrete
inputs: the hash prepends a marker, verification rebuilds it. -/
def sampleHasher : PasswordHasher :=
  { hashPw := fun s => "hashed:" ++ s
    verifyPw := fun p hs => hs == "hashed:" ++ p }

/-- A concrete ADMIN account. -/
def adminAlice : Account :=
  { id := "a1", username := "alice", fullName := "Alice Admin", phoneNumber := "11999999999"
    email := "alice@example.com", password := "hashed:password123", role := .ADMIN
    created_at := 100, profile_picture := none }

/-- A concrete USER account. -/
def userBob : Account :=
  { id := "u1", username := "bob", fullName := "Bob User", phoneNumber := "11988887777"
    email := "bob@example.com", password := "hashed:bobsecret1", role := .USER
    created_at := 200, profile_picture := none }

/-- A concrete PROPERTY_OWNER account. -/
def ownerCarol : Account :=
  { id := "p1", username := "carol", fullName := "Carol Owner", phoneNumber := "11977776666"
    email := "carol@example.com", password := "hashed:carolsecret", role := .PROPERTY_OWNER
    created_at := 300, profile_picture := none }

/-- A concrete store with exactly one admin. -/
def sampleDb : List Account := [adminAlice, userBob, ownerCarol]

/-- A concrete profile update changing only the full name. -/
def bobNameReq : UpdateProfileRequest :=
  { fullName := some "Bobby", phoneNumber := none, email := none
    newPassword := none, currentPassword := none }

/-- The row `bobNameReq` produces. -/
def bobNameUpdated : Account := { userBob with fullName := "Bobby" }

/-- A concrete admin update changing only the phone number. -/
def bobPhoneReq : UpdateUserRequest :=
  { fullName := none, phoneNumber := some "11900001111", email := none, password := none }

/-- The row `bobPhoneReq` produces. -/
def bobPhoneUpdated : Account := { userBob with phoneNumber := "11900001111" }

/-- A concrete registration request, free in `sampleDb`. -/
def daveReq : RegisterUserRequest :=
  { username := "dave", fullName := "Dave Fresh", email := "dave@example.com"
    phoneNumber := "11933334444", password := "davepass123" }

/-- A concrete registration request whose username is a case variant of
the stored "alice". -/
def aliceCaseReq : RegisterUserRequest :=
  { username := "ALICE", fullName := "Alice Clone", email := "clone@example.com"
    phoneNumber := "11955556666", password := "clonepass123" }

/-- A concrete registration request that passes DTO validation (username
length 3 to 50, phone 10 to 20 characters, password at least 8) but whose
hyphenated username the Account model validator rejects. -/
def hyphenReq : RegisterUserRequest :=
  { username := "user-name", fullName := "Dash Name", email := "dash@example.com"
    phoneNumber := "11999990000", password := "dashpass123" }

/-- The row `daveReq` persists. -/
def daveAccount : Account :=
  { id := "n2", username := "dave", fullName := "Dave Fresh", phoneNumber := "11933334444"
    email := "dave@example.com", password := "hashed:davepass123", role := .USER
    created_at := 500, profile_picture := none }

/-! ## Helper lemmas -/

/-- A normalized store detects a case-variant duplicate username. -/
theorem username_exists_of_norm (db : List Account) (u : String)
    (hnorm : StoreNormalized db) (a : Account) (ha : a ∈ db)
    (heq : pyLower a.username = pyLower u) :
    username_exists db u none = true := by
  have hu : a.username = pyLower u := by rw [← (hnorm a ha).1, heq]
  unfold username_exists
  rw [List.any_eq_true]
  exact ⟨a, ha, by simp [hu]⟩

/-- A normalized store detects a case-variant duplicate email. -/
theorem email_exists_of_norm (db : List Account) (e : String)
    (hnorm : StoreNormalized db) (a : Account) (ha : a ∈ db)
    (heq : pyLower a.email = pyLower e) :
    email_exists db e none = true := by
  have he : a.email = pyLower e := by rw [← (hnorm a ha).2, heq]
  unfold email_exists
  rw [List.any_eq_true]
  exact ⟨a, ha, by simp [he]⟩

/-- Without a case-variant duplicate, the username check is negative. -/
theorem username_exists_eq_false (db : List Account) (u : String)
    (hnorm : StoreNormalized db)
    (hnd : ¬ ∃ a ∈ db, pyLower a.username = pyLower u) :
    username_exists db u none = false := by
  rw [← Bool.not_eq_true]
  intro hx
  unfold username_exists at hx
  rw [List.any_eq_true] at hx
  obtain ⟨a, ha, hpa⟩ := hx
  simp only [Bool.and_eq_true, beq_iff_eq] at hpa
  exact hnd ⟨a, ha, by rw [(hnorm a ha).1]; exact hpa.1⟩

/-- Without a case-variant duplicate, the email check is negative. -/
theorem email_exists_eq_false (db : List Account) (e : String)
    (hnorm : StoreNormalized db)
    (hnd : ¬ ∃ a ∈ db, pyLower a.email = pyLower e) :
    email_exists db e none = false := by
  rw [← Bool.not_eq_true]
  intro hx
  unfold email_exists at hx
  rw [List.any_eq_true] at hx
  obtain ⟨a, ha, hpa⟩ := hx
  simp only [Bool.and_eq_true, beq_iff_eq] at hpa
  exact hnd ⟨a, ha, by rw [(hnorm a ha).2]; exact hpa.1⟩

/-- A duplicate username or email makes `register_user` raise one of the
two duplicate errors. -/
theorem register_user_dup (h : PasswordHasher) (db : List Account)
    (d : RegisterUserRequest) (newId : String) (createdAt : Nat)
    (hd : username_exists db d.username none = true ∨ email_exists db d.email none = true) :
    isDuplicateConflict (register_user h db d newId createdAt) = true := by
  unfold register_user
  by_cases hu : username_exists db d.username none = true
  · simp [hu, isDuplicateConflict]
  · have he : email_exists db d.email none = true := hd.resolve_left hu
    rw [Bool.not_eq_true] at hu
    simp [hu, he, isDuplicateConflict]

/-- A duplicate username or email makes `register_property_owner` raise
one of the two duplicate errors. -/
theorem register_property_owner_dup (h : PasswordHasher) (db : List Account)
    (d : RegisterUserRequest) (newId : String) (createdAt : Nat)
    (hd : username_exists db d.username none = true ∨ email_exists db d.email none = true) :
    isDuplicateConflict (register_property_owner h db d newId createdAt) = true := by
  unfold register_property_owner
  by_cases hu : username_exists db d.username none = true
  · simp [hu, isDuplicateConflict]
  · have he : email_exists db d.email none = true := hd.resolve_left hu
    rw [Bool.not_eq_true] at hu
    simp [hu, he, isDuplicateConflict]

/-- An untouched row stays in the store committed by `repo_update`. -/
theorem repo_update_mem (db : List Account) (acc b : Account) (hb : b ∈ db)
    (hne : b.id ≠ acc.id) : b ∈ repo_update db acc := by
  unfold repo_update
  exact List.mem_map.mpr ⟨b, hb, by simp [hne]⟩

/-- Fields of the full-name mutation step: everything but the full name
is unchanged, and the full name survives an unsupplied field. -/
theorem apply_fullName_fields (v : Option String) (a : Account) :
    (apply_fullName v a).id = a.id ∧ (apply_fullName v a).username = a.username
    ∧ (apply_fullName v a).role = a.role
    ∧ (truthy v = false → (apply_fullName v a).fullName = a.fullName)
    ∧ (apply_fullName v a).phoneNumber = a.phoneNumber
    ∧ (apply_fullName v a).email = a.email
    ∧ (apply_fullName v a).password = a.password
    ∧ (apply_fullName v a).created_at = a.created_at
    ∧ (apply_fullName v a).profile_picture = a.profile_picture := by
  unfold apply_fullName
  split
  case isTrue ht =>
    exact ⟨rfl, rfl, rfl, fun hf => absurd ht (by simp [hf]), rfl, rfl, rfl, rfl, rfl⟩
  case isFalse ht =>
    exact ⟨rfl, rfl, rfl, fun _ => rfl, rfl, rfl, rfl, rfl, rfl⟩

/-- Fields of the phone-number mutation step. -/
theorem apply_phoneNumber_fields (v : Option String) (a : Account) :
    (apply_phoneNumber v a).id = a.id ∧ (apply_phoneNumber v a).username = a.username
    ∧ (apply_phoneNumber v a).role = a.role
    ∧ (apply_phoneNumber v a).fullName = a.fullName
    ∧ (truthy v = false → (apply_phoneNumber v a).phoneNumber = a.phoneNumber)
    ∧ (apply_phoneNumber v a).email = a.email
    ∧ (apply_phoneNumber v a).password = a.password
    ∧ (apply_phoneNumber v a).created_at = a.created_at
    ∧ (apply_phoneNumber v a).profile_picture = a.profile_picture := by
  unfold apply_phoneNumber
  split
  case isTrue ht =>
    exact ⟨rfl, rfl, rfl, rfl, fun hf => absurd ht (by simp [hf]), rfl, rfl, rfl, rfl⟩
  case isFalse ht =>
    exact ⟨rfl, rfl, rfl, rfl, fun _ => rfl, rfl, rfl, rfl, rfl⟩

/-- Fields of the password mutation step. -/
theorem apply_password_fields (h : PasswordHasher) (v : Option String) (a : Account) :
    (apply_password h v a).id = a.id ∧ (apply_password h v a).username = a.username
    ∧ (apply_password h v a).role = a.role
    ∧ (apply_password h v a).fullName = a.fullName
    ∧ (apply_password h v a).phoneNumber = a.phoneNumber
    ∧ (apply_password h v a).email = a.email
    ∧ (truthy v = false → (apply_password h v a).password = a.password)
    ∧ (apply_password h v a).created_at = a.created_at
    ∧ (apply_password h v a).profile_picture = a.profile_picture := by
  unfold apply_password
  split
  case isTrue ht =>
    exact ⟨rfl, rfl, rfl, rfl, rfl, rfl, fun hf => absurd ht (by simp [hf]), rfl, rfl⟩
  case isFalse ht =>
    exact ⟨rfl, rfl, rfl, rfl, rfl, rfl, fun _ => rfl, rfl, rfl⟩

/-- Fields preserved by a successful self-service email step. -/
theorem apply_email_self_ok (db : List Account) (cid : String) (v : Option String)
    (a b : Account) (hok : apply_email_self db cid v a = .ok b) :
    b.id = a.id ∧ b.username = a.username ∧ b.role = a.role
    ∧ b.fullName = a.fullName ∧ b.phoneNumber = a.phoneNumber
    ∧ (truthy v = false → b.email = a.email)
    ∧ b.password = a.password ∧ b.created_at = a.created_at
    ∧ b.profile_picture = a.profile_picture := by
  unfold apply_email_self at hok
  split at hok
  case isTrue htv =>
    split at hok
    · split at hok
      · split at hok
        · exact absurd hok (by simp)
        · injection hok with hok
          subst hok
          exact ⟨rfl, rfl, rfl, rfl, rfl, fun hf => absurd htv (by simp [hf]), rfl, rfl, rfl⟩
      · injection hok with hok
        subst hok
        exact ⟨rfl, rfl, rfl, rfl, rfl, fun hf => absurd htv (by simp [hf]), rfl, rfl, rfl⟩
    · injection hok with hok
      subst hok
      exact ⟨rfl, rfl, rfl, rfl, rfl, fun _ => rfl, rfl, rfl, rfl⟩
  case isFalse htv =>
    injection hok with hok
    subst hok
    exact ⟨rfl, rfl, rfl, rfl, rfl, fun _ => rfl, rfl, rfl, rfl⟩

/-- Fields preserved by a successful admin email step. -/
theorem apply_email_admin_ok (db : List Account) (tid : String) (v : Option String)
    (a b : Account) (hok : apply_email_admin db tid v a = .ok b) :
    b.id = a.id ∧ b.username = a.username ∧ b.role = a.role
    ∧ b.fullName = a.fullName ∧ b.phoneNumber = a.phoneNumber
    ∧ (truthy v = false → b.email = a.email)
    ∧ b.password = a.password ∧ b.created_at = a.created_at
    ∧ b.profile_picture = a.profile_picture := by
  unfold apply_email_admin at hok
  split at hok
  case isTrue htv =>
    split at hok
    · split at hok
      · exact absurd hok (by simp)
      · injection hok with hok
        subst hok
        exact ⟨rfl, rfl, rfl, rfl, rfl, fun hf => absurd htv (by simp [hf]), rfl, rfl, rfl⟩
    · injection hok with hok
      subst hok
      exact ⟨rfl, rfl, rfl, rfl, rfl, fun _ => rfl, rfl, rfl, rfl⟩
  case isFalse htv =>
    injection hok with hok
    subst hok
    exact ⟨rfl, rfl, rfl, rfl, rfl, fun _ => rfl, rfl, rfl, rfl⟩

/-- The username hook only succeeds with the lowercased input. -/
theorem validate_username_model_ok (s u : String)
    (h : validate_username_model s = .ok u) : u = pyLower s := by
  unfold validate_username_model at h
  split at h
  · exact absurd h (by simp)
  split at h
  · exact absurd h (by simp)
  split at h
  · exact absurd h (by simp)
  injection h with h
  exact h.symm

/-- The email hook only succeeds with the lowercased input. -/
theorem validate_email_model_ok (s u : String)
    (h : validate_email_model s = .ok u) : u = pyLower s := by
  unfold validate_email_model at h
  split at h
  · exact absurd h (by simp)
  injection h with h
  exact h.symm

/-- The phone hook only succeeds with the input unchanged. -/
theorem validate_phone_model_ok (s u : String)
    (h : validate_phone_model s = .ok u) : u = s := by
  unfold validate_phone_model at h
  split at h
  · exact absurd h (by simp)
  split at h
  · exact absurd h (by simp)
  injection h with h
  exact h.symm

/-- The password hook only succeeds with the input unchanged. -/
theorem validate_password_model_ok (s u : String)
    (h : validate_password_model s = .ok u) : u = s := by
  unfold validate_password_model at h
  split at h
  · exact absurd h (by simp)
  split at h
  · exact absurd h (by simp)
  injection h with h
  exact h.symm

/-- The fields of a row the Account constructor builds successfully:
the validated (lowercased) username and email, the other arguments
unchanged. -/
theorem buildAccount_ok_fields (username fullName email phone password : String)
    (role : RoleEnum) (newId : String) (createdAt : Nat) (acc : Account)
    (hok : buildAccount username fullName email phone password role newId createdAt = .ok acc) :
    acc.id = newId ∧ acc.username = pyLower username ∧ acc.fullName = fullName
    ∧ acc.phoneNumber = phone ∧ acc.email = pyLower email ∧ acc.password = password
    ∧ acc.role = role ∧ acc.created_at = createdAt ∧ acc.profile_picture = none := by
  unfold buildAccount at hok
  split at hok
  · exact absurd hok (by simp)
  rename_i uname hu
  split at hok
  · exact absurd hok (by simp)
  rename_i em hemail
  split at hok
  · exact absurd hok (by simp)
  rename_i ph hphone
  split at hok
  · exact absurd hok (by simp)
  rename_i pw hpw
  injection hok with hok
  subst hok
  obtain rfl := validate_username_model_ok username uname hu
  obtain rfl := validate_email_model_ok email em hemail
  obtain rfl := validate_phone_model_ok phone ph hphone
  obtain rfl := validate_password_model_ok password pw hpw
  exact ⟨rfl, rfl, rfl, rfl, rfl, rfl, rfl, rfl, rfl⟩

/-! ## Theorems -/

/-- C1: the spec states the role field is always one of the three
enumerated values USER, PROPERTY_OWNER, ADMIN. The committed model file
enumerates only USER and PROPERTY_OWNER, and its `validate_role` hook
rejects an ADMIN role string outright — while the test suite of the repo
(tests/models/test_account.py) assert `RoleEnum.ADMIN.value == "ADMIN"`
and every service/controller/script constructs ADMIN accounts. The code,
not the claim, is at fault: this theorem evaluates the committed model at
the failing input. -/
theorem c1_committed_model_rejects_admin_role :
    validate_role "ADMIN" = .error "Role must be \x27user\x27 or \x27property_owner\x27"
    ∧ validate_role "admin" = .error "Role must be \x27user\x27 or \x27property_owner\x27"
    ∧ (∀ r : ModelRoleEnum, r = .USER ∨ r = .PROPERTY_OWNER)
    ∧ (∀ r : ModelRoleEnum, r.value ≠ "ADMIN") := by
  refine ⟨by decide, by decide, ?_, ?_⟩ <;> intro r <;> cases r <;> simp [ModelRoleEnum.value]

/-- C1 witness: the committed validate_role rejects the ADMIN value, and
the USER member of the committed enum does not carry the ADMIN value. -/
theorem c1_committed_model_rejects_admin_role_witness :
    validate_role "ADMIN" = .error "Role must be \x27user\x27 or \x27property_owner\x27"
    ∧ ModelRoleEnum.USER.value ≠ "ADMIN" :=
  ⟨c1_committed_model_rejects_admin_role.1,
   c1_committed_model_rejects_admin_role.2.2.2 .USER⟩

/-- C5: `verify_token` returns the decoded claim set exactly when the
token is signed under the service secret and algorithm and the current
time is before the embedded expiry; every other token yields the single
invalid result; a token issued with ttl `T` verifies strictly before
issuance + T and is invalid from issuance + T on. -/
theorem c5_verify_token_correct (now : Nat) (t : Token) (c : Claims)
    (data : TokenData) (issue ttl atTime : Nat) :
    (verify_token now t = some c ↔ (t = .signed c SECRET_KEY ALGORITHM ∧ now < c.exp))
    ∧ (atTime < issue + ttl →
        verify_token atTime (create_access_token issue data (some ttl)) =
          some { data := data, exp := issue + ttl })
    ∧ (issue + ttl ≤ atTime →
        verify_token atTime (create_access_token issue data (some ttl)) = none) := by
  refine ⟨?_, ?_, ?_⟩
  · cases t with
    | malformed r => simp [verify_token]
    | signed c' secret alg =>
        simp only [verify_token, Token.signed.injEq]
        constructor
        · intro hv
          by_cases hcond : (secret == SECRET_KEY && alg == ALGORITHM && decide (now < c'.exp)) = true
          · simp [hcond] at hv
            simp only [Bool.and_eq_true, beq_iff_eq, decide_eq_true_eq] at hcond
            exact ⟨⟨hv ▸ rfl, hcond.1.1, hcond.1.2⟩, hv ▸ hcond.2⟩
          · simp [hcond] at hv
        · rintro ⟨⟨hc, hs, ha⟩, hexp⟩
          subst hc; subst hs; subst ha
          simp [hexp]
  · intro hlt
    simp [verify_token, create_access_token, hlt]
  · intro hge
    simp [verify_token, create_access_token]
    omega

/-- C5 witness: a token issued at time 50 with ttl 60 verifies at time
100 and is invalid at time 120. -/
theorem c5_verify_token_correct_witness :
    verify_token 100 (create_access_token 50 { sub := "a1", username := "alice", role := "ADMIN" } (some 60)) =
      some { data := { sub := "a1", username := "alice", role := "ADMIN" }, exp := 110 }
    ∧ verify_token 120 (create_access_token 50 { sub := "a1", username := "alice", role := "ADMIN" } (some 60)) =
      none :=
  ⟨(c5_verify_token_correct 0 (.malformed "x") ⟨⟨"", "", ""⟩, 0⟩
      { sub := "a1", username := "alice", role := "ADMIN" } 50 60 100).2.1 (by decide),
   (c5_verify_token_correct 0 (.malformed "x") ⟨⟨"", "", ""⟩, 0⟩
      { sub := "a1", username := "alice", role := "ADMIN" } 50 60 120).2.2 (by decide)⟩

/-- C7: the introspection handler always answers with HTTP 200: an
invalid or expired token yields `active = false` with a reason, a valid
token yields `active = true` with the decoded claims; no error path
exists. -/
theorem c7_introspect_always_200 (now : Nat) (body : IntrospectRequest) :
    (introspect now body).1 = 200
    ∧ (verify_token now body.token = none →
        (introspect now body).2 =
          { active := false, claims := none, reason := some "invalid_or_expired" })
    ∧ (∀ p, verify_token now body.token = some p →
        (introspect now body).2 = { active := true, claims := some p, reason := none }) := by
  rcases hv : verify_token now body.token with _ | p <;> simp [introspect, hv]

/-- C7 witness: a malformed token introspects to an inactive response,
and the status component is 200. -/
theorem c7_introspect_always_200_witness :
    (introspect 0 { token := .malformed "garbage" }).1 = 200
    ∧ (introspect 0 { token := .malformed "garbage" }).2 =
        { active := false, claims := none, reason := some "invalid_or_expired" } :=
  ⟨(c7_introspect_always_200 0 { token := .malformed "garbage" }).1,
   (c7_introspect_always_200 0 { token := .malformed "garbage" }).2.1 (by decide)⟩

/-- C6: a failed login against an absent username and a failed login
against an existing username with a wrong password are observably
identical: both authenticate to `none` and both produce the same uniform
401 response, so the caller cannot distinguish the two. -/
theorem c6_login_indistinguishable (h : PasswordHasher) (db : List Account) (now : Nat)
    (l1 l2 : LoginRequest) (u : Account)
    (h1 : get_by_username db l1.username = none)
    (h2 : get_by_username db l2.username = some u)
    (h3 : h.verifyPw l2.password u.password = false) :
    authenticate_user h db l1 = none
    ∧ authenticate_user h db l2 = none
    ∧ login h db now l1 = .error (.unauthorized "Incorrect username or password")
    ∧ login h db now l2 = .error (.unauthorized "Incorrect username or password")
    ∧ login h db now l1 = login h db now l2 := by
  simp [authenticate_user, login, h1, h2, h3]

/-- C6 witness: on the sample store, logging in as the absent "ghost" and
logging in as "bob" with a wrong password produce identical outcomes. -/
theorem c6_login_indistinguishable_witness :
    login sampleHasher sampleDb 0 { username := "ghost", password := "whatever123" } =
      login sampleHasher sampleDb 0 { username := "bob", password := "wrongpass99" } :=
  (c6_login_indistinguishable sampleHasher sampleDb 0
      { username := "ghost", password := "whatever123" }
      { username := "bob", password := "wrongpass99" } userBob
      (by decide) (by decide) (by decide)).2.2.2.2

/-- C2 counterexample: on a store with exactly one admin, the sole admin
calling AdminDeleteAdmin on a nonexistent target id fails with NotFound
(404), not BadRequest — refuting "fails with BadRequest ... for every
target id". -/
theorem c2_counterexample :
    count_admins sampleDb = 1
    ∧ adminAlice.is_admin = true
    ∧ delete_admin sampleDb "ghost" adminAlice = .error (.notFound "Admin account not found")
    ∧ isBadRequest (delete_admin sampleDb "ghost" adminAlice) = false := by
  decide

/-- C2 (amended): on a store with exactly one admin, AdminDeleteAdmin
always fails: with NotFound when the target id is absent (and not the
id of the caller), and with BadRequest in every other case (self-delete,
target not an admin, or the last-admin count check, which runs after the
self-delete and existence checks against the pre-deletion total). -/
theorem c2_last_admin_deletion_always_fails (db : List Account) (deleter : Account)
    (adminId : String) (hcount : count_admins db = 1) :
    (∃ e, delete_admin db adminId deleter = .error e)
    ∧ (deleter.id = adminId →
        delete_admin db adminId deleter = .error (.badRequest "Cannot delete your own admin account"))
    ∧ (deleter.id ≠ adminId → get_by_id db adminId = none →
        delete_admin db adminId deleter = .error (.notFound "Admin account not found"))
    ∧ (∀ t, get_by_id db adminId = some t → deleter.id ≠ adminId →
        ∃ d, delete_admin db adminId deleter = .error (.badRequest d)) := by
  by_cases hid : deleter.id = adminId
  · have heq : delete_admin db adminId deleter =
        .error (.badRequest "Cannot delete your own admin account") := by
      simp [delete_admin, hid]
    exact ⟨⟨_, heq⟩, fun _ => heq, fun hne => absurd hid hne, fun t _ hne => absurd hid hne⟩
  · rcases hg : get_by_id db adminId with _ | t
    · have heq : delete_admin db adminId deleter =
          .error (.notFound "Admin account not found") := by
        simp [delete_admin, hid, hg]
      refine ⟨⟨_, heq⟩, fun he => absurd he hid, fun _ _ => heq, fun t ht _ => ?_⟩
      exact absurd ht (by simp)
    · have hmain : ∃ d, delete_admin db adminId deleter = .error (.badRequest d) := by
        by_cases hadm : t.is_admin = true
        · exact ⟨"Cannot delete the last admin account in the system",
            by simp [delete_admin, hid, hg, hadm, hcount]⟩
        · exact ⟨"Target account is not an admin",
            by simp [delete_admin, hid, hg, hadm]⟩
      refine ⟨?_, fun he => absurd he hid, fun _ habs => ?_, fun t' ht' _ => ?_⟩
      · obtain ⟨d, hd⟩ := hmain; exact ⟨_, hd⟩
      · exact absurd habs (by simp)
      · obtain rfl : t = t' := by injection ht'
        exact hmain

/-- C2 witness: on the sample one-admin store, the sole admin targeting
the existing non-admin "u1" gets a BadRequest. -/
theorem c2_last_admin_deletion_always_fails_witness :
    ∃ d, delete_admin sampleDb "u1" adminAlice = .error (.badRequest d) :=
  (c2_last_admin_deletion_always_fails sampleDb adminAlice "u1" (by decide)).2.2.2
    userBob (by decide) (by decide)

/-- C3 counterexample: the DTO-valid, non-duplicate request with
username "user-name" is not persisted and returned as the claim states —
the Account username hook raises "Username must contain only letters,
numbers and underscore", which escapes the service (and is not the
duplicate Conflict either). -/
theorem c3_counterexample :
    username_exists sampleDb hyphenReq.username none = false
    ∧ email_exists sampleDb hyphenReq.email none = false
    ∧ register_user sampleHasher sampleDb hyphenReq "n3" 600 =
        .error (.internalError "Username must contain only letters, numbers and underscore")
    ∧ isDuplicateConflict (register_user sampleHasher sampleDb hyphenReq "n3" 600) = false := by
  decide

/-- C3 (amended): registering with a username or email that already
exists in a normalized store under any case variant fails with the
duplicate (Conflict) error and no account is created; otherwise, when a
request also passes the Account model hooks (username 3 to 50 characters
of letters, digits and underscore; 10 to 15 digits of phone number;
nonempty email; at-least-8-character stored hash), the password is
hashed and the row is persisted with the role fixed by the calling
endpoint (USER or PROPERTY_OWNER) and returned; a non-duplicate request
rejected by a hook raises that ValueError out of the service and
persists nothing (the error return means the create never runs). -/
theorem c3_register_conflict_or_create_amended (h : PasswordHasher) (db : List Account)
    (d : RegisterUserRequest) (newId : String) (createdAt : Nat)
    (hnorm : StoreNormalized db) :
    ((∃ a ∈ db, pyLower a.username = pyLower d.username ∨ pyLower a.email = pyLower d.email) →
        isDuplicateConflict (register_user h db d newId createdAt) = true
        ∧ isDuplicateConflict (register_property_owner h db d newId createdAt) = true)
    ∧ ((¬ ∃ a ∈ db, pyLower a.username = pyLower d.username ∨ pyLower a.email = pyLower d.email) →
        (∀ acc, buildAccount (pyLower d.username) d.fullName (pyLower d.email) d.phoneNumber
            (h.hashPw d.password) .USER newId createdAt = .ok acc →
          register_user h db d newId createdAt = .ok (db ++ [acc], acc)
          ∧ acc.password = h.hashPw d.password ∧ acc.role = RoleEnum.USER)
        ∧ (∀ acc, buildAccount (pyLower d.username) d.fullName (pyLower d.email) d.phoneNumber
            (h.hashPw d.password) .PROPERTY_OWNER newId createdAt = .ok acc →
          register_property_owner h db d newId createdAt = .ok (db ++ [acc], acc)
          ∧ acc.password = h.hashPw d.password ∧ acc.role = RoleEnum.PROPERTY_OWNER)
        ∧ (∀ e, buildAccount (pyLower d.username) d.fullName (pyLower d.email) d.phoneNumber
            (h.hashPw d.password) .USER newId createdAt = .error e →
          register_user h db d newId createdAt = .error (.internalError e))
        ∧ (∀ e, buildAccount (pyLower d.username) d.fullName (pyLower d.email) d.phoneNumber
            (h.hashPw d.password) .PROPERTY_OWNER newId createdAt = .error e →
          register_property_owner h db d newId createdAt = .error (.internalError e))) := by
  constructor
  · rintro ⟨a, ha, hdup⟩
    have hd : username_exists db d.username none = true ∨ email_exists db d.email none = true := by
      rcases hdup with hu | he
      · exact Or.inl (username_exists_of_norm db d.username hnorm a ha hu)
      · exact Or.inr (email_exists_of_norm db d.email hnorm a ha he)
    exact ⟨register_user_dup h db d newId createdAt hd,
      register_property_owner_dup h db d newId createdAt hd⟩
  · intro hnd
    have hu : username_exists db d.username none = false :=
      username_exists_eq_false db d.username hnorm
        (fun ⟨a, ha, hp⟩ => hnd ⟨a, ha, Or.inl hp⟩)
    have he : email_exists db d.email none = false :=
      email_exists_eq_false db d.email hnorm
        (fun ⟨a, ha, hp⟩ => hnd ⟨a, ha, Or.inr hp⟩)
    refine ⟨?_, ?_, ?_, ?_⟩
    · intro acc hacc
      have hfld := buildAccount_ok_fields (pyLower d.username) d.fullName (pyLower d.email)
        d.phoneNumber (h.hashPw d.password) .USER newId createdAt acc hacc
      exact ⟨by simp [register_user, hu, he, hacc, repo_create],
        hfld.2.2.2.2.2.1, hfld.2.2.2.2.2.2.1⟩
    · intro acc hacc
      have hfld := buildAccount_ok_fields (pyLower d.username) d.fullName (pyLower d.email)
        d.phoneNumber (h.hashPw d.password) .PROPERTY_OWNER newId createdAt acc hacc
      exact ⟨by simp [register_property_owner, hu, he, hacc, repo_create],
        hfld.2.2.2.2.2.1, hfld.2.2.2.2.2.2.1⟩
    · intro e herr
      simp [register_user, hu, he, herr]
    · intro e herr
      simp [register_property_owner, hu, he, herr]

/-- C3 witness: on the sample store, registering the case variant "ALICE"
hits the duplicate error, while registering the fresh hook-valid "dave"
persists the new row with role USER and the hashed password. -/
theorem c3_register_conflict_or_create_amended_witness :
    isDuplicateConflict (register_user sampleHasher sampleDb aliceCaseReq "n1" 400) = true
    ∧ register_user sampleHasher sampleDb daveReq "n2" 500 =
        .ok (sampleDb ++ [daveAccount], daveAccount) :=
  ⟨((c3_register_conflict_or_create_amended sampleHasher sampleDb aliceCaseReq "n1" 400
      (by unfold StoreNormalized; decide)).1 (by decide)).1,
   ((((c3_register_conflict_or_create_amended sampleHasher sampleDb daveReq "n2" 500
      (by unfold StoreNormalized; decide)).2 (by decide)).1 daveAccount (by decide)).1)⟩

/-- C4: the self-profile update fails with BadRequest "No fields to
update" when no updatable field is supplied; with BadRequest when an
email or new password is supplied without the current password; with
Unauthorized — a distinct error from the BadRequest cases — when a
current password is supplied that does not verify against the stored
hash; and every failing call leaves the store untouched (the error is
raised before any commit). -/
theorem c4_update_profile_failures (h : PasswordHasher) (db : List Account)
    (current : Account) (u : UpdateProfileRequest) :
    (truthy u.fullName = false → truthy u.phoneNumber = false → truthy u.email = false →
      truthy u.newPassword = false →
      update_profile h db current u = .error (.badRequest "No fields to update"))
    ∧ ((truthy u.email = true ∨ truthy u.newPassword = true) →
        truthy u.currentPassword = false →
        update_profile h db current u =
          .error (.badRequest "Current password is required to change email or password"))
    ∧ ((truthy u.fullName || truthy u.phoneNumber || truthy u.email || truthy u.newPassword) = true →
        truthy u.currentPassword = true →
        h.verifyPw (u.currentPassword.getD "") current.password = false →
        update_profile h db current u = .error (.unauthorized "Current password is incorrect"))
    ∧ (ApiError.unauthorized "Current password is incorrect" ≠
        ApiError.badRequest "Current password is required to change email or password")
    ∧ (∀ e, update_profile h db current u = .error e →
        update_profile_store h db current u = db) := by
  refine ⟨?_, ?_, ?_, by simp, ?_⟩
  · intro h1 h2 h3 h4
    simp [update_profile, h1, h2, h3, h4]
  · intro hor hcp
    rcases hor with hc | hc <;> simp [update_profile, hc, hcp]
  · intro hany hcp hv
    simp [update_profile, hany, hcp, hv]
  · intro e he
    simp [update_profile_store, he]

/-- C4 witness: on the sample store, an empty update, an email change
without the current password, and a name change with a wrong current
password produce the three distinct failures. -/
theorem c4_update_profile_failures_witness :
    update_profile sampleHasher sampleDb userBob
        { fullName := none, phoneNumber := none, email := none
          newPassword := none, currentPassword := none } =
      .error (.badRequest "No fields to update")
    ∧ update_profile sampleHasher sampleDb userBob
        { fullName := none, phoneNumber := none, email := some "new@example.com"
          newPassword := none, currentPassword := none } =
      .error (.badRequest "Current password is required to change email or password")
    ∧ update_profile sampleHasher sampleDb userBob
        { fullName := some "Bobby", phoneNumber := none, email := none
          newPassword := none, currentPassword := some "wrongpw" } =
      .error (.unauthorized "Current password is incorrect") :=
  ⟨(c4_update_profile_failures sampleHasher sampleDb userBob
      { fullName := none, phoneNumber := none, email := none
        newPassword := none, currentPassword := none }).1
      (by decide) (by decide) (by decide) (by decide),
   (c4_update_profile_failures sampleHasher sampleDb userBob
      { fullName := none, phoneNumber := none, email := some "new@example.com"
        newPassword := none, currentPassword := none }).2.1
      (Or.inl (by decide)) (by decide),
   (c4_update_profile_failures sampleHasher sampleDb userBob
      { fullName := some "Bobby", phoneNumber := none, email := none
        newPassword := none, currentPassword := some "wrongpw" }).2.2.1
      (by decide) (by decide) (by decide)⟩

/-- C8: every successful AdminDeleteUser triggers the deletion webhook
exactly once for the deleted id (hence at least once); the webhook
outcome — delivery, HTTP error, transport error or unexpected failure —
never changes the endpoint result and never prevents or rolls back the
deletion (the deleted store is identical under any two outcomes), and
failures only produce log lines. -/
theorem c8_admin_delete_user_webhook (db : List Account) (userId : String)
    (o1 o2 : WebhookOutcome) :
    (∀ target, get_by_id db userId = some target → target.is_admin = false →
        admin_delete_user db userId o1 =
          .ok (repo_delete db target, [target.id], send_user_deleted_webhook target.id o1))
    ∧ (∀ db1 calls1 logs1 db2 calls2 logs2,
        admin_delete_user db userId o1 = .ok (db1, calls1, logs1) →
        admin_delete_user db userId o2 = .ok (db2, calls2, logs2) →
        db1 = db2 ∧ calls1 = calls2 ∧ calls1 ≠ [])
    ∧ (∀ e, admin_delete_user db userId o1 = .error e ↔
        admin_delete_user db userId o2 = .error e) := by
  rcases hg : get_by_id db userId with _ | target
  · have e1 : admin_delete_user db userId o1 = .error (.notFound "User not found") := by
      simp [admin_delete_user, hg]
    have e2 : admin_delete_user db userId o2 = .error (.notFound "User not found") := by
      simp [admin_delete_user, hg]
    refine ⟨fun t ht _ => absurd ht (by simp), ?_, fun e => by rw [e1, e2]⟩
    intro db1 calls1 logs1 db2 calls2 logs2 h1 h2
    rw [e1] at h1
    exact absurd h1 (by simp)
  · by_cases hadm : target.is_admin = true
    · have e1 : admin_delete_user db userId o1 = .error (.badRequest
          "Cannot delete admin users via this endpoint. Use admin deletion endpoint instead.") := by
        simp [admin_delete_user, hg, hadm]
      have e2 : admin_delete_user db userId o2 = .error (.badRequest
          "Cannot delete admin users via this endpoint. Use admin deletion endpoint instead.") := by
        simp [admin_delete_user, hg, hadm]
      refine ⟨?_, ?_, fun e => by rw [e1, e2]⟩
      · intro t ht hna
        obtain rfl : target = t := by injection ht
        rw [hadm] at hna
        exact absurd hna (by simp)
      · intro db1 calls1 logs1 db2 calls2 logs2 h1 h2
        rw [e1] at h1
        exact absurd h1 (by simp)
    · have hadm2 : target.is_admin = false := by simpa using hadm
      have e1 : admin_delete_user db userId o1 =
          .ok (repo_delete db target, [target.id], send_user_deleted_webhook target.id o1) := by
        simp [admin_delete_user, hg, hadm2]
      have e2 : admin_delete_user db userId o2 =
          .ok (repo_delete db target, [target.id], send_user_deleted_webhook target.id o2) := by
        simp [admin_delete_user, hg, hadm2]
      refine ⟨?_, ?_, ?_⟩
      · intro t ht _
        obtain rfl : target = t := by injection ht
        exact e1
      · intro db1 calls1 logs1 db2 calls2 logs2 h1 h2
        rw [e1] at h1
        rw [e2] at h2
        simp only [Except.ok.injEq, Prod.mk.injEq] at h1 h2
        obtain ⟨hdb1, hc1, hl1⟩ := h1
        obtain ⟨hdb2, hc2, hl2⟩ := h2
        subst hdb1; subst hc1; subst hdb2; subst hc2
        exact ⟨rfl, rfl, by simp⟩
      · intro e
        rw [e1, e2]
        simp

/-- C8 witness: deleting the user "u1" succeeds with one webhook call for
"u1" even when the webhook transport fails. -/
theorem c8_admin_delete_user_webhook_witness :
    admin_delete_user sampleDb "u1" .requestFailed =
      .ok (repo_delete sampleDb userBob, [userBob.id],
        send_user_deleted_webhook userBob.id .requestFailed) :=
  (c8_admin_delete_user_webhook sampleDb "u1" .requestFailed (.delivered 200)).1
    userBob (by decide) (by decide)

/-- C9: a PROPERTY_OWNER whose relation check confirms a relation with a
target id that is absent from the local store receives a successful
response carrying the synthetic placeholder (username derived from the
first eight characters of the id, role USER) — never an error, in
particular never NotFound. -/
theorem c9_owner_relation_placeholder (db : List Account) (current : Account)
    (userId : String) (now : Nat)
    (hrole : current.role = RoleEnum.PROPERTY_OWNER)
    (hne : current.id ≠ userId)
    (habs : get_by_id db userId = none) :
    get_user_by_id_endpoint db current userId true now =
      .ok { id := userId
            username := "external_user_" ++ userId.take 8
            fullName := "External User"
            email := "external-" ++ userId.take 8 ++ "@example.com"
            phoneNumber := some "+5500900000000"
            role := "USER"
            createdAt := now
            isActive := true
            hasProfilePicture := false }
    ∧ (∀ e, get_user_by_id_endpoint db current userId true now ≠ .error e) := by
  have hadm : current.is_admin = false := by simp [Account.is_admin, hrole]
  have hpo : current.is_property_owner = true := by simp [Account.is_property_owner, hrole]
  have heq : get_user_by_id_endpoint db current userId true now =
      .ok { id := userId
            username := "external_user_" ++ userId.take 8
            fullName := "External User"
            email := "external-" ++ userId.take 8 ++ "@example.com"
            phoneNumber := some "+5500900000000"
            role := "USER"
            createdAt := now
            isActive := true
            hasProfilePicture := false } := by
    simp [get_user_by_id_endpoint, hadm, hpo, hne, get_user_by_id_service, habs]
  exact ⟨heq, fun e => by rw [heq]; simp⟩

/-- C9 witness: the owner "carol" with a confirmed relation to the absent
id "zzzz1234extra" receives the placeholder row. -/
theorem c9_owner_relation_placeholder_witness :
    get_user_by_id_endpoint sampleDb ownerCarol "zzzz1234extra" true 777 =
      .ok { id := "zzzz1234extra"
            username := "external_user_" ++ ("zzzz1234extra" : String).take 8
            fullName := "External User"
            email := "external-" ++ ("zzzz1234extra" : String).take 8 ++ "@example.com"
            phoneNumber := some "+5500900000000"
            role := "USER"
            createdAt := 777
            isActive := true
            hasProfilePicture := false } :=
  (c9_owner_relation_placeholder sampleDb ownerCarol "zzzz1234extra" 777
    (by decide) (by decide) (by decide)).1

/-- C10: every successful self-profile update or admin user update leaves
the id, username and role of the updated account unchanged, keeps the
untouched columns (created_at, profile picture), retains the prior value
of every field not supplied in the request, commits exactly the mutated
row, and leaves every other row in the store. -/
theorem c10_update_frame (h : PasswordHasher) (db : List Account) (current : Account)
    (u : UpdateProfileRequest) (ua : UpdateUserRequest) (userId : String) :
    (∀ db2 a2, update_profile h db current u = .ok (db2, a2) →
        a2.id = current.id ∧ a2.username = current.username ∧ a2.role = current.role
        ∧ a2.created_at = current.created_at ∧ a2.profile_picture = current.profile_picture
        ∧ (truthy u.fullName = false → a2.fullName = current.fullName)
        ∧ (truthy u.phoneNumber = false → a2.phoneNumber = current.phoneNumber)
        ∧ (truthy u.email = false → a2.email = current.email)
        ∧ (truthy u.newPassword = false → a2.password = current.password)
        ∧ db2 = repo_update db a2
        ∧ (∀ b ∈ db, b.id ≠ current.id → b ∈ db2))
    ∧ (∀ t db2 a2, get_by_id db userId = some t →
        admin_update_user h db userId ua = .ok (db2, a2) →
        a2.id = t.id ∧ a2.username = t.username ∧ a2.role = t.role
        ∧ a2.created_at = t.created_at ∧ a2.profile_picture = t.profile_picture
        ∧ (truthy ua.fullName = false → a2.fullName = t.fullName)
        ∧ (truthy ua.phoneNumber = false → a2.phoneNumber = t.phoneNumber)
        ∧ (truthy ua.email = false → a2.email = t.email)
        ∧ (truthy ua.password = false → a2.password = t.password)
        ∧ db2 = repo_update db a2
        ∧ (∀ b ∈ db, b.id ≠ t.id → b ∈ db2)) := by
  constructor
  · intro db2 a2 hok
    unfold update_profile at hok
    split at hok
    · exact absurd hok (by simp)
    split at hok
    · exact absurd hok (by simp)
    split at hok
    · exact absurd hok (by simp)
    rcases he : apply_email_self db current.id u.email
        (apply_phoneNumber u.phoneNumber (apply_fullName u.fullName current)) with e | acc3
    · rw [he] at hok
      exact absurd hok (by simp)
    · rw [he] at hok
      simp only [Except.ok.injEq, Prod.mk.injEq] at hok
      obtain ⟨hdb, ha⟩ := hok
      obtain ⟨f1, f2, f3, f4, f5, f6, f7, f8, f9⟩ := apply_fullName_fields u.fullName current
      obtain ⟨p1, p2, p3, p4, p5, p6, p7, p8, p9⟩ :=
        apply_phoneNumber_fields u.phoneNumber (apply_fullName u.fullName current)
      obtain ⟨m1, m2, m3, m4, m5, m6, m7, m8, m9⟩ :=
        apply_email_self_ok db current.id u.email _ acc3 he
      obtain ⟨w1, w2, w3, w4, w5, w6, w7, w8, w9⟩ :=
        apply_password_fields h u.newPassword acc3
      subst ha
      refine ⟨?_, ?_, ?_, ?_, ?_, ?_, ?_, ?_, ?_, hdb.symm, ?_⟩
      · rw [w1, m1, p1, f1]
      · rw [w2, m2, p2, f2]
      · rw [w3, m3, p3, f3]
      · rw [w8, m8, p8, f8]
      · rw [w9, m9, p9, f9]
      · intro hf
        rw [w4, m4, p4, f4 hf]
      · intro hp
        rw [w5, m5, p5 hp, f5]
      · intro hm
        rw [w6, m6 hm, p6, f6]
      · intro hw
        rw [w7 hw, m7, p7, f7]
      · intro b hb hbne
        rw [← hdb]
        refine repo_update_mem db _ b hb ?_
        rw [w1, m1, p1, f1]
        exact hbne
  · intro t db2 a2 ht hok
    unfold admin_update_user at hok
    rw [ht] at hok
    dsimp only at hok
    split at hok
    · exact absurd hok (by simp)
    rcases he : apply_email_admin db t.id ua.email
        (apply_phoneNumber ua.phoneNumber (apply_fullName ua.fullName t)) with e | acc3
    · rw [he] at hok
      exact absurd hok (by simp)
    · rw [he] at hok
      simp only [Except.ok.injEq, Prod.mk.injEq] at hok
      obtain ⟨hdb, ha⟩ := hok
      obtain ⟨f1, f2, f3, f4, f5, f6, f7, f8, f9⟩ := apply_fullName_fields ua.fullName t
      obtain ⟨p1, p2, p3, p4, p5, p6, p7, p8, p9⟩ :=
        apply_phoneNumber_fields ua.phoneNumber (apply_fullName ua.fullName t)
      obtain ⟨m1, m2, m3, m4, m5, m6, m7, m8, m9⟩ :=
        apply_email_admin_ok db t.id ua.email _ acc3 he
      obtain ⟨w1, w2, w3, w4, w5, w6, w7, w8, w9⟩ :=
        apply_password_fields h ua.password acc3
      subst ha
      refine ⟨?_, ?_, ?_, ?_, ?_, ?_, ?_, ?_, ?_, hdb.symm, ?_⟩
      · rw [w1, m1, p1, f1]
      · rw [w2, m2, p2, f2]
      · rw [w3, m3, p3, f3]
      · rw [w8, m8, p8, f8]
      · rw [w9, m9, p9, f9]
      · intro hf
        rw [w4, m4, p4, f4 hf]
      · intro hp
        rw [w5, m5, p5 hp, f5]
      · intro hm
        rw [w6, m6 hm, p6, f6]
      · intro hw
        rw [w7 hw, m7, p7, f7]
      · intro b hb hbne
        rw [← hdb]
        refine repo_update_mem db _ b hb ?_
        rw [w1, m1, p1, f1]
        exact hbne

/-- C10 witness: a name-only self update of user "bob" keeps id and
password, and a phone-only admin update keeps the role. -/
theorem c10_update_frame_witness :
    bobNameUpdated.id = userBob.id
    ∧ bobNameUpdated.password = userBob.password
    ∧ bobPhoneUpdated.role = userBob.role :=
  ⟨((c10_update_frame sampleHasher sampleDb userBob bobNameReq bobPhoneReq "u1").1
      (repo_update sampleDb bobNameUpdated) bobNameUpdated (by decide)).1,
   ((c10_update_frame sampleHasher sampleDb userBob bobNameReq bobPhoneReq "u1").1
      (repo_update sampleDb bobNameUpdated) bobNameUpdated
      (by decide)).2.2.2.2.2.2.2.2.1 (by decide),
   ((c10_update_frame sampleHasher sampleDb userBob bobNameReq bobPhoneReq "u1").2
      userBob (repo_update sampleDb bobPhoneUpdated) bobPhoneUpdated
      (by decide) (by decide)).2.2.1⟩

end SextoAndar
